import Mathlib

/-!
Shallow embedding of `src/log_simulator.py` (LinuxLogGenerator).

The Python script samples a random authentication scenario, builds a
structured record (`generate_random_log_data`), renders it in `syslog` or
`cef` format (`generate_log_message`), validates CLI arguments
(`parse_arguments`), and runs a paced generation loop (`generate_logs`).

Randomness is embedded by making every call to `random.choice` /
`random.randint` take an explicit natural-number draw: `random.choice l`
becomes indexing `l` at `k % l.length`, and `random.randint a b` becomes
`a + k % (b - a + 1)`, which are surjective onto the same ranges.
-/

namespace LogSimulator

/-- `valid_facilities` list from the source (line 49). -/
def valid_facilities : List String :=
  ["auth", "authpriv", "cron", "daemon", "ftp", "kern", "lpr", "mail", "news",
   "syslog", "user", "uucp", "local0", "local1", "local2", "local3", "local4",
   "local5", "local6", "local7"]

/-- `valid_levels` list from the source (line 50). -/
def valid_levels : List String := ["DEBUG", "INFO", "WARNING", "ERROR", "CRITICAL"]

/-- `check_facility` from the source (line 95). -/
def check_facility (facility : String) : Bool := valid_facilities.contains facility

/-- Embedding of Python's `random.choice l`: an arbitrary draw `k` selects
`l[k % len(l)]`; every element of `l` is selected by some `k` and only
elements of `l` are ever selected, matching `random.choice`'s support. -/
def random_choice (l : List String) (k : Nat) : String := l.getD (k % l.length) ""

/-- Embedding of Python's `random.randint a b` (inclusive bounds). -/
def randint (a b k : Nat) : Nat := a + k % (b - a + 1)

/-- `device_event_class_id_map` from `generate_random_log_data` (lines 183-194). -/
def device_event_class_id_map : List ((String × String) × Nat) :=
  [(("success", "login"), 1),
   (("success", "logout"), 2),
   (("success", "password_change"), 3),
   (("success", "account_creation"), 4),
   (("failure", "login"), 5),
   (("failure", "logout"), 6),
   (("failure", "password_change"), 7),
   (("failure", "account_creation"), 8),
   (("failure", "invalid_credentials"), 9),
   (("failure", "expired_password"), 10)]

/-- Python dict subscript `device_event_class_id_map[(response, auth_event)]`:
`none` models a `KeyError`. -/
def class_id_lookup (p : String × String) : Option Nat :=
  (device_event_class_id_map.find? (fun q => q.1 == p)).map (fun q => q.2)

/-- `response_map` dict from the source (lines 196-199); subscripting an
absent key is a `KeyError`, modelled as `none`. -/
def response_map (response : String) : Option String :=
  if response == "success" then some "allow"
  else if response == "failure" then some "deny"
  else none

/-- `reasons` list from the source (line 202). -/
def reasons : List String := ["unknown", "expired_password", "invalid_credentials"]

/-- `responses` list from the source (line 203). -/
def responses : List String := ["success", "failure"]

/-- `auth_events` list from the source (line 204): the sampler's event-kind
domain. -/
def auth_events : List String := ["login", "logout", "password_change", "account_creation"]

/-- `users` list from the source (line 205). -/
def users : List String := ["alice", "bob", "charlie"]

/-- The `suser` choice list from the source (line 233). -/
def susers : List String := ["user", "admin", "service_account"]

/-- The `extension` dict of a log record (source lines 220-234), with its
fields in Python dict insertion order. `reason` is `Option` because the
source stores `None` for successes. -/
structure Extension where
  src : String
  dst : String
  spt : Nat
  dpt : Nat
  response : String
  user : String
  outcome : String
  reason : Option String
  cs1 : String
  deviceProcessName : String
  authDecision : String
  act : String
  suser : String
  deriving DecidableEq

/-- The `log_data` dict of `generate_random_log_data` (source lines 213-235). -/
structure LogData where
  device_vendor : String
  device_product : String
  device_version : String
  device_event_class_id : Nat
  name : String
  severity : Nat
  extension : Extension
  deriving DecidableEq

/-- Python `str()` of an optional value as it appears via f-string
interpolation: `None` prints as the literal `"None"`. -/
def pyStr (o : Option String) : String :=
  match o with
  | none => "None"
  | some s => s

/-- The key/value pairs of the extension dict, in insertion order, with
values stringified the way Python's f-string interpolation does. -/
def extensionPairs (e : Extension) : List (String × String) :=
  [("src", e.src), ("dst", e.dst), ("spt", toString e.spt), ("dpt", toString e.dpt),
   ("response", e.response), ("user", e.user), ("outcome", e.outcome),
   ("reason", pyStr e.reason), ("cs1", e.cs1),
   ("deviceProcessName", e.deviceProcessName), ("authDecision", e.authDecision),
   ("act", e.act), ("suser", e.suser)]

/-- `' '.join(f'{k}={v}' for k, v in log_data['extension'].items())`
(source lines 245 and 248). -/
def joinExtension (e : Extension) : String :=
  String.intercalate " " ((extensionPairs e).map (fun p => p.1 ++ "=" ++ p.2))

/-- One explicit draw per `random.*` call in `generate_random_log_data`,
in source order. -/
structure RandSource where
  responseIdx : Nat
  authEventIdx : Nat
  reasonIdx : Nat
  userIdx : Nat
  severityIdx : Nat
  srcIdx : Nat
  dstIdx : Nat
  sptIdx : Nat
  suserIdx : Nat
  deriving DecidableEq

/-- `generate_random_log_data` (source lines 180-236): samples a scenario and
builds the record. The two dict subscripts (`response_map[response]` and
`device_event_class_id_map[(response, auth_event)]`) can raise `KeyError`,
so the result is `Option LogData`. -/
def generate_random_log_data (r : RandSource) : Option LogData :=
  let response := random_choice responses r.responseIdx
  let auth_event := random_choice auth_events r.authEventIdx
  match response_map response, class_id_lookup (response, auth_event) with
  | some decision, some cid =>
    some
      { device_vendor := "Contoso"
        device_product := "auth_server"
        device_version := "1.0"
        device_event_class_id := cid
        name := "Log Simulator - Auth Event"
        severity := randint 1 10 r.severityIdx
        extension :=
          { src := "192.168.0." ++ toString (randint 1 255 r.srcIdx)
            dst := "192.168.0." ++ toString (randint 1 255 r.dstIdx)
            spt := randint 1024 65535 r.sptIdx
            dpt := 22
            response := response
            user := random_choice users r.userIdx
            outcome := response
            reason := if response == "failure"
                      then some (random_choice reasons r.reasonIdx) else none
            cs1 := "password"
            deviceProcessName := "ssh"
            authDecision := decision
            act := auth_event
            suser := random_choice susers r.suserIdx } }
  | _, _ => none

/-- Python's `str.upper()` (ASCII case mapping, which covers every string
the script compares level names against). -/
def py_upper (s : String) : String := String.mk (s.data.map Char.toUpper)

/-- `getattr(logging, level.upper(), None)` restricted to the five level
names the script accepts (source line 240): Python's `logging` module maps
DEBUG to 10, INFO to 20, WARNING to 30, ERROR to 40, CRITICAL to 50; any
string that is not one of these attribute names yields `None` here. -/
def level_number (level : String) : Option Nat :=
  if py_upper level == "DEBUG" then some 10
  else if py_upper level == "INFO" then some 20
  else if py_upper level == "WARNING" then some 30
  else if py_upper level == "ERROR" then some 40
  else if py_upper level == "CRITICAL" then some 50
  else none

/-- `RFC5424Formatter.map_priority` (source lines 84-93): the script's own
level-name-to-syslog-priority table, defaulting to 6 (INFO). -/
def map_priority (levelname : String) : Nat :=
  if levelname == "CRITICAL" then 2
  else if levelname == "ERROR" then 3
  else if levelname == "WARNING" then 4
  else if levelname == "INFO" then 6
  else if levelname == "DEBUG" then 7
  else 6

/-- `generate_log_message` (source lines 239-251). A raised `ValueError`
is modelled as `Except.error` carrying the message. -/
def generate_log_message (format : String) (log_data : LogData) (level : String) :
    Except String String :=
  match level_number level with
  | none => Except.error ("Invalid logging level " ++ level)
  | some level_num =>
    if format == "syslog" then
      Except.ok
        (log_data.device_vendor ++ " " ++ level ++ " " ++ log_data.extension.act ++ " " ++
         toString log_data.device_event_class_id ++ " " ++ log_data.extension.user ++ " " ++
         log_data.extension.outcome ++ " " ++ pyStr log_data.extension.reason ++ " " ++
         joinExtension log_data.extension)
    else if format == "cef" then
      Except.ok
        ("CEF:0|" ++ log_data.device_vendor ++ "|" ++ log_data.device_product ++ "|" ++
         log_data.device_version ++ "|" ++ toString log_data.device_event_class_id ++ "|" ++
         log_data.name ++ "|" ++ toString level_num ++ "|" ++ joinExtension log_data.extension)
    else
      Except.error ("Invalid format value " ++ format ++
        ". Format must be either syslog or cef.")

/-- Whether an `Except` result is a success (no exception raised). -/
def exceptIsOk {ε α : Type} (e : Except ε α) : Bool :=
  match e with
  | Except.ok _ => true
  | Except.error _ => false

/-- The rendered string of a successful `generate_log_message` call, or the
error message when it raised. -/
def renderedOrErr (e : Except String String) : String :=
  match e with
  | Except.ok s => s
  | Except.error m => m

/-- The facility resolution in `parse_arguments` (source lines 120-125):
an unsupported facility aborts unless the dead `authpriv`-to-`security`
fallback applies; `none` models the `sys.exit(1)` abort. -/
def resolve_facility (facility : String) : Option String :=
  if check_facility facility then some facility
  else if facility == "authpriv" && check_facility "security" then some "security"
  else none

/-- The validation sequence of `parse_arguments` after option parsing
(source lines 120-145), in source order: facility check, `events <= 0`,
`rate <= 0`, then the DEBUG-with-unbounded-runtime check.  `Except.error`
models `print(error); sys.exit(1)`. Arguments are `Int` because `argparse`
accepts any integer. -/
def parse_validate (facility : String) (events rate : Int) (level : String)
    (runtime : Int) : Except String Unit :=
  match resolve_facility facility with
  | none => Except.error "Error: The facility is not supported on this system."
  | some _ =>
    if events ≤ 0 then Except.error "Error: Number of events must be greater than 0."
    else if rate ≤ 0 then Except.error "Error: Logging rate must be greater than 0."
    else if level == "DEBUG" && runtime == 0 then
      Except.error "Error: Debug logging requires a finite runtime."
    else Except.ok ()

/-- The event loop of `generate_logs` (source lines 297-319) abstracted to
its control shape: `i` is the loop counter, the second argument the number
of remaining iterations of `range(events)`, `elapsed i` the value of
`time.time() - start_time` observed at the top of iteration `i`. The
result counts the iterations that run their body (one emitted event each);
the loop breaks when `runtime > 0` and the elapsed time has reached
`runtime`. -/
def emit_loop (runtime : Int) (elapsed : Nat → Int) : Nat → Nat → Nat
  | _, 0 => 0
  | i, rem + 1 =>
    if runtime > 0 ∧ elapsed i ≥ runtime then 0
    else 1 + emit_loop runtime elapsed (i + 1) rem

/-- Number of events emitted by one `generate_logs` run with the given
`events` and `runtime` configuration and clock observations `elapsed`. -/
def emitted_events (events : Nat) (runtime : Int) (elapsed : Nat → Int) : Nat :=
  emit_loop runtime elapsed 0 events

/-!
Verification helpers: token-level views of rendered lines, used to state
properties such as "the output contains the token `user=alice`". They
split on the space character, the separator both formats join their
`key=value` tokens with.
-/

/-- Splits a character list into space-separated tokens (accumulator holds
the current token reversed). -/
def splitSpacesAux : List Char → List Char → List String
  | [], acc => [String.mk acc.reverse]
  | c :: cs, acc =>
    if c = ' ' then String.mk acc.reverse :: splitSpacesAux cs []
    else splitSpacesAux cs (c :: acc)

/-- The space-separated tokens of a rendered line. -/
def spaceTokens (s : String) : List String := splitSpacesAux s.data []

/-- Whether `s` begins with the string `t`. -/
def str_begins (s t : String) : Bool := s.data.take t.data.length == t.data

/-- The record built from draws `⟨0,0,0,0,0,0,0,0,0⟩`: a success/login
scenario for user alice (checked against `generate_random_log_data` in the
theorems below). -/
def successLoginRecord : LogData :=
  { device_vendor := "Contoso", device_product := "auth_server", device_version := "1.0",
    device_event_class_id := 1, name := "Log Simulator - Auth Event", severity := 1,
    extension :=
      { src := "192.168.0.1", dst := "192.168.0.1", spt := 1024, dpt := 22,
        response := "success", user := "alice", outcome := "success", reason := none,
        cs1 := "password", deviceProcessName := "ssh", authDecision := "allow",
        act := "login", suser := "user" } }

/-- The record built from draws `⟨1,0,2,0,0,0,0,0,0⟩`: a failure/login
scenario whose reason is invalid_credentials. -/
def failureLoginRecord : LogData :=
  { device_vendor := "Contoso", device_product := "auth_server", device_version := "1.0",
    device_event_class_id := 5, name := "Log Simulator - Auth Event", severity := 1,
    extension :=
      { src := "192.168.0.1", dst := "192.168.0.1", spt := 1024, dpt := 22,
        response := "failure", user := "alice", outcome := "failure",
        reason := some "invalid_credentials",
        cs1 := "password", deviceProcessName := "ssh", authDecision := "deny",
        act := "login", suser := "user" } }

/-- The spec's CEF scenario record (§8): outcome=failure,
event_kind=invalid_credentials, reason=invalid_credentials, with the class
id the map assigns that pair. -/
def cefScenarioRecord : LogData :=
  { device_vendor := "Contoso", device_product := "auth_server", device_version := "1.0",
    device_event_class_id := 9, name := "Log Simulator - Auth Event", severity := 7,
    extension :=
      { src := "192.168.0.10", dst := "192.168.0.20", spt := 2222, dpt := 22,
        response := "failure", user := "bob", outcome := "failure",
        reason := some "invalid_credentials",
        cs1 := "password", deviceProcessName := "ssh", authDecision := "deny",
        act := "invalid_credentials", suser := "admin" } }

/-- The plain (syslog) rendering as the spec describes it: vendor, minimum
log level label, auth_event, class_id, user, outcome, reason, then every
extension field as `key=value`, all space-joined in insertion order; an
absent reason renders as the absent-value marker (`pyStr none = "None"`). -/
def render_plain_from_spec (d : LogData) (level : String) : String :=
  String.intercalate " "
    ([d.device_vendor, level, d.extension.act, toString d.device_event_class_id,
      d.extension.user, d.extension.outcome, pyStr d.extension.reason] ++
     (extensionPairs d.extension).map (fun p => p.1 ++ "=" ++ p.2))

/-- The CEF rendering exactly as claim C3 words it: the header
`CEF:0|vendor|product|version|class_id|display_name|severity|` where the
severity field is the numeric syslog-level equivalent of the configured
minimum level — the script's own `map_priority` table — followed by the
space-joined extension tokens. -/
def render_cef_as_claimed (d : LogData) (level : String) : String :=
  String.intercalate "|"
    ["CEF:0", d.device_vendor, d.device_product, d.device_version,
     toString d.device_event_class_id, d.name, toString (map_priority level)] ++
  "|" ++ String.intercalate " " ((extensionPairs d.extension).map (fun p => p.1 ++ "=" ++ p.2))

/-- The CEF rendering with the header layout the spec describes, but with
the severity field holding the logging-module numeric value of the
configured minimum level (DEBUG 10, INFO 20, WARNING 30, ERROR 40,
CRITICAL 50) — the amended form of claim C3. -/
def render_cef_level_number (d : LogData) (level : String) : String :=
  String.intercalate "|"
    ["CEF:0", d.device_vendor, d.device_product, d.device_version,
     toString d.device_event_class_id, d.name, toString ((level_number level).getD 0)] ++
  "|" ++ String.intercalate " " ((extensionPairs d.extension).map (fun p => p.1 ++ "=" ++ p.2))

/-! Helper lemmas. -/

theorem level_number_DEBUG : level_number "DEBUG" = some 10 := by decide

theorem level_number_INFO : level_number "INFO" = some 20 := by decide

theorem level_number_WARNING : level_number "WARNING" = some 30 := by decide

theorem level_number_ERROR : level_number "ERROR" = some 40 := by decide

theorem level_number_CRITICAL : level_number "CRITICAL" = some 50 := by decide

theorem random_choice_mem (l : List String) (k : Nat) (h : l ≠ []) :
    random_choice l k ∈ l := by
  unfold random_choice
  have hlen : 0 < l.length := List.length_pos.mpr h
  have hk := Nat.mod_lt k hlen
  rw [List.getD_eq_getElem l _ hk]
  exact List.getElem_mem hk

theorem emit_loop_le (runtime : Int) (elapsed : Nat → Int) (i n : Nat) :
    emit_loop runtime elapsed i n ≤ n := by
  induction n generalizing i with
  | zero => simp [emit_loop]
  | succ m ih =>
    unfold emit_loop
    split
    · omega
    · have := ih (i + 1)
      omega

theorem emit_loop_runtime_zero (elapsed : Nat → Int) (i n : Nat) :
    emit_loop 0 elapsed i n = n := by
  induction n generalizing i with
  | zero => rfl
  | succ m ih =>
    unfold emit_loop
    have : ¬((0 : Int) > 0 ∧ elapsed i ≥ 0) := by
      rintro ⟨h1, _⟩
      exact lt_irrefl _ h1
    rw [if_neg this, ih]
    omega

/-!
Claim theorems.
-/

/-- C1: for every sampled scenario the built record's decision field is
"allow" iff the outcome is "success" and "deny" iff it is "failure", and
the derivation (`response_map`) is total over the two-element outcome
domain. -/
theorem decision_matches_outcome (r : RandSource) (d : LogData)
    (h : generate_random_log_data r = some d) :
    ((d.extension.authDecision = "allow" ↔ d.extension.outcome = "success") ∧
     (d.extension.authDecision = "deny" ↔ d.extension.outcome = "failure")) ∧
    responses.all (fun o => (response_map o).isSome) = true := by
  refine ⟨?_, by decide⟩
  have h2 : r.responseIdx % 2 = 0 ∨ r.responseIdx % 2 = 1 := Nat.mod_two_eq_zero_or_one _
  have h4 : r.authEventIdx % 4 = 0 ∨ r.authEventIdx % 4 = 1 ∨ r.authEventIdx % 4 = 2 ∨
      r.authEventIdx % 4 = 3 := by omega
  unfold generate_random_log_data random_choice at h
  rcases h2 with h2 | h2 <;> rcases h4 with h4 | h4 | h4 | h4 <;>
    simp [responses, auth_events, h2, h4, response_map, class_id_lookup,
      device_event_class_id_map] at h <;>
    subst h <;> simp

/-- Witness for C1 at the concrete draw `⟨0,0,0,0,0,0,0,0,0⟩`, which builds
`successLoginRecord`. -/
theorem decision_matches_outcome_witness :
    ((successLoginRecord.extension.authDecision = "allow" ↔
        successLoginRecord.extension.outcome = "success") ∧
     (successLoginRecord.extension.authDecision = "deny" ↔
        successLoginRecord.extension.outcome = "failure")) ∧
    responses.all (fun o => (response_map o).isSome) = true :=
  decision_matches_outcome ⟨0, 0, 0, 0, 0, 0, 0, 0, 0⟩ successLoginRecord (by decide)

/-- C2: for every sampled scenario the reason field is present iff the
outcome is "failure" (and is then a value of the failure-reason domain);
for "success" it is absent (`none`). -/
theorem reason_present_iff_failure (r : RandSource) (d : LogData)
    (h : generate_random_log_data r = some d) :
    (d.extension.reason.isSome = true ↔ d.extension.outcome = "failure") ∧
    (d.extension.outcome = "success" → d.extension.reason = none) ∧
    (∀ s, d.extension.reason = some s → s ∈ reasons) := by
  have h2 : r.responseIdx % 2 = 0 ∨ r.responseIdx % 2 = 1 := Nat.mod_two_eq_zero_or_one _
  have h4 : r.authEventIdx % 4 = 0 ∨ r.authEventIdx % 4 = 1 ∨ r.authEventIdx % 4 = 2 ∨
      r.authEventIdx % 4 = 3 := by omega
  have h3 : r.reasonIdx % 3 = 0 ∨ r.reasonIdx % 3 = 1 ∨ r.reasonIdx % 3 = 2 := by omega
  unfold generate_random_log_data random_choice at h
  rcases h2 with h2 | h2 <;> rcases h4 with h4 | h4 | h4 | h4 <;>
    rcases h3 with h3 | h3 | h3 <;>
    simp [responses, auth_events, reasons, h2, h4, h3, response_map, class_id_lookup,
      device_event_class_id_map] at h <;>
    subst h <;> simp [reasons]

/-- Witness for C2 at the concrete draw `⟨1,0,2,0,0,0,0,0,0⟩`, which builds
`failureLoginRecord` (a failure with reason invalid_credentials). -/
theorem reason_present_iff_failure_witness :
    (failureLoginRecord.extension.reason.isSome = true ↔
      failureLoginRecord.extension.outcome = "failure") ∧
    (failureLoginRecord.extension.outcome = "success" →
      failureLoginRecord.extension.reason = none) ∧
    (∀ s, failureLoginRecord.extension.reason = some s → s ∈ reasons) :=
  reason_present_iff_failure ⟨1, 0, 2, 0, 0, 0, 0, 0, 0⟩ failureLoginRecord (by decide)

/-- C5: every (outcome, event_kind) pair the sampler can produce is mapped
by `device_event_class_id_map`, so building a record never fails: for every
random draw the builder returns `some`, and every pair of the sampler's
outcome and event-kind domains has a class-id entry. -/
theorem sampled_pairs_always_mapped (r : RandSource) :
    (generate_random_log_data r).isSome = true ∧
    responses.all (fun o => auth_events.all
      (fun e => (class_id_lookup (o, e)).isSome)) = true := by
  refine ⟨?_, by decide⟩
  have h2 : r.responseIdx % 2 = 0 ∨ r.responseIdx % 2 = 1 := Nat.mod_two_eq_zero_or_one _
  have h4 : r.authEventIdx % 4 = 0 ∨ r.authEventIdx % 4 = 1 ∨ r.authEventIdx % 4 = 2 ∨
      r.authEventIdx % 4 = 3 := by omega
  unfold generate_random_log_data random_choice
  rcases h2 with h2 | h2 <;> rcases h4 with h4 | h4 | h4 | h4 <;>
    simp [responses, auth_events, h2, h4, response_map, class_id_lookup,
      device_event_class_id_map]

/-- C6: in the fixed class-id map, the mapped (outcome, event_kind) keys
are pairwise distinct, no two entries share a class id, and every class id
is a positive integer. -/
theorem class_map_injective_positive :
    (device_event_class_id_map.map (fun p => p.1)).Nodup ∧
    (device_event_class_id_map.map (fun p => p.2)).Nodup ∧
    device_event_class_id_map.all (fun p => decide (0 < p.2)) = true := by decide

/-- C7 (amended): the sampler draws event_kind uniformly over the
four-element domain {login, logout, password_change, account_creation}
(the duplicate-free `auth_events` list); every built record's event kind
lies in that domain, and each of the four kinds is produced by an explicit
draw. -/
theorem event_kind_sampling_domain (r : RandSource) (d : LogData)
    (h : generate_random_log_data r = some d) :
    d.extension.act ∈ auth_events ∧
    (List.range 4).map (fun k => (generate_random_log_data ⟨0, k, 0, 0, 0, 0, 0, 0, 0⟩).map
      (fun d2 => d2.extension.act)) = auth_events.map some ∧
    auth_events.Nodup := by
  refine ⟨?_, by decide, by decide⟩
  have h2 : r.responseIdx % 2 = 0 ∨ r.responseIdx % 2 = 1 := Nat.mod_two_eq_zero_or_one _
  have h4 : r.authEventIdx % 4 = 0 ∨ r.authEventIdx % 4 = 1 ∨ r.authEventIdx % 4 = 2 ∨
      r.authEventIdx % 4 = 3 := by omega
  unfold generate_random_log_data random_choice at h
  rcases h2 with h2 | h2 <;> rcases h4 with h4 | h4 | h4 | h4 <;>
    simp [responses, auth_events, h2, h4, response_map, class_id_lookup,
      device_event_class_id_map] at h <;>
    subst h <;> simp [auth_events]

/-- Witness for C7's amended theorem at the concrete draw
`⟨0,0,0,0,0,0,0,0,0⟩`. -/
theorem event_kind_sampling_domain_witness :
    successLoginRecord.extension.act ∈ auth_events ∧
    (List.range 4).map (fun k => (generate_random_log_data ⟨0, k, 0, 0, 0, 0, 0, 0, 0⟩).map
      (fun d2 => d2.extension.act)) = auth_events.map some ∧
    auth_events.Nodup :=
  event_kind_sampling_domain ⟨0, 0, 0, 0, 0, 0, 0, 0, 0⟩ successLoginRecord (by decide)

/-- C7 counterexample: the event-kind list the sampler draws from has four
elements and contains none of invalid_credentials, expired_password,
account_locked, so the draw is not uniform over the claimed seven-element
domain and those three kinds are never produced as event_kind. -/
theorem event_kind_domain_is_four_elements :
    auth_events.length = 4 ∧
    auth_events.contains "invalid_credentials" = false ∧
    auth_events.contains "expired_password" = false ∧
    auth_events.contains "account_locked" = false := by decide

/-- C4: rendering in plain (syslog) format concatenates vendor, the
minimum log level label, auth_event, class_id, user, outcome, reason, then
every extension field as a space-joined `key=value` token in insertion
order, with an absent reason rendered as the absent-value marker; the
builder's success/login/alice draw yields `successLoginRecord`, whose
rendering contains the tokens `user=alice` and `outcome=success` and whose
reason token (position 7) is the marker "None". -/
theorem plain_render_layout (d : LogData) (level : String) (h : level ∈ valid_levels) :
    generate_log_message "syslog" d level = Except.ok (render_plain_from_spec d level) ∧
    generate_random_log_data ⟨0, 0, 0, 0, 0, 0, 0, 0, 0⟩ = some successLoginRecord ∧
    (spaceTokens (renderedOrErr
      (generate_log_message "syslog" successLoginRecord "INFO"))).contains
        "user=alice" = true ∧
    (spaceTokens (renderedOrErr
      (generate_log_message "syslog" successLoginRecord "INFO"))).contains
        "outcome=success" = true ∧
    (spaceTokens (renderedOrErr
      (generate_log_message "syslog" successLoginRecord "INFO"))).getD 6 "" = "None" := by
  refine ⟨?_, by decide, by decide, by decide, by decide⟩
  fin_cases h <;>
    simp [generate_log_message, render_plain_from_spec, level_number_DEBUG,
      level_number_INFO, level_number_WARNING, level_number_ERROR, level_number_CRITICAL,
      joinExtension, extensionPairs, String.intercalate, String.intercalate.go,
      String.append_assoc]

/-- Witness for C4 at `successLoginRecord` and level INFO. -/
theorem plain_render_layout_witness :
    generate_log_message "syslog" successLoginRecord "INFO" =
      Except.ok (render_plain_from_spec successLoginRecord "INFO") ∧
    generate_random_log_data ⟨0, 0, 0, 0, 0, 0, 0, 0, 0⟩ = some successLoginRecord ∧
    (spaceTokens (renderedOrErr
      (generate_log_message "syslog" successLoginRecord "INFO"))).contains
        "user=alice" = true ∧
    (spaceTokens (renderedOrErr
      (generate_log_message "syslog" successLoginRecord "INFO"))).contains
        "outcome=success" = true ∧
    (spaceTokens (renderedOrErr
      (generate_log_message "syslog" successLoginRecord "INFO"))).getD 6 "" = "None" :=
  plain_render_layout successLoginRecord "INFO" (by decide)

/-- C3 (amended): rendering in CEF format produces the header
`CEF:0|vendor|product|version|class_id|display_name|severity|` followed by
the space-joined extension tokens in insertion order, where the severity
header field holds the logging-module numeric value of the configured
minimum level (DEBUG 10 .. CRITICAL 50) — not the record's sampled
severity field and not the syslog-priority equivalent; the spec's CEF
scenario record renders to a line beginning `CEF:0|Contoso|` that contains
the token `reason=invalid_credentials`. -/
theorem cef_render_layout (d : LogData) (level : String) (h : level ∈ valid_levels) :
    generate_log_message "cef" d level = Except.ok (render_cef_level_number d level) ∧
    str_begins (renderedOrErr
      (generate_log_message "cef" cefScenarioRecord "INFO")) "CEF:0|Contoso|" = true ∧
    (spaceTokens (renderedOrErr
      (generate_log_message "cef" cefScenarioRecord "INFO"))).contains
        "reason=invalid_credentials" = true := by
  refine ⟨?_, by decide, by decide⟩
  fin_cases h <;>
    simp [generate_log_message, render_cef_level_number, level_number_DEBUG,
      level_number_INFO, level_number_WARNING, level_number_ERROR, level_number_CRITICAL,
      joinExtension, extensionPairs, String.intercalate, String.intercalate.go,
      String.append_assoc]

/-- Witness for C3's amended theorem at `cefScenarioRecord` and level INFO. -/
theorem cef_render_layout_witness :
    generate_log_message "cef" cefScenarioRecord "INFO" =
      Except.ok (render_cef_level_number cefScenarioRecord "INFO") ∧
    str_begins (renderedOrErr
      (generate_log_message "cef" cefScenarioRecord "INFO")) "CEF:0|Contoso|" = true ∧
    (spaceTokens (renderedOrErr
      (generate_log_message "cef" cefScenarioRecord "INFO"))).contains
        "reason=invalid_credentials" = true :=
  cef_render_layout cefScenarioRecord "INFO" (by decide)

/-- C3 counterexample: at level INFO the rendered CEF header carries the
logging-module value 20, not the syslog-level equivalent 6 that the
script's own `map_priority` table assigns to INFO, so the output differs
from the claimed rendering. -/
theorem cef_severity_not_syslog_priority :
    (renderedOrErr (generate_log_message "cef" cefScenarioRecord "INFO") ==
      render_cef_as_claimed cefScenarioRecord "INFO") = false ∧
    map_priority "INFO" = 6 ∧
    level_number "INFO" = some 20 ∧
    (renderedOrErr (generate_log_message "cef" cefScenarioRecord "INFO")).data.take 47 =
      "CEF:0|Contoso|auth_server|1.0|9|Log Simulator -".data := by decide

/-- C9: rendering with a format outside {syslog, cef} raises (returns an
error, producing no rendered string), while the two recognized formats
never raise for any record and any of the five configured levels. -/
theorem format_error_handling (format level : String) (d : LogData) :
    (format ∉ ["syslog", "cef"] →
      exceptIsOk (generate_log_message format d level) = false) ∧
    (format ∈ ["syslog", "cef"] → level ∈ valid_levels →
      exceptIsOk (generate_log_message format d level) = true) := by
  constructor
  · intro hf
    simp only [List.mem_cons, List.not_mem_nil, or_false, not_or] at hf
    obtain ⟨h1, h2⟩ := hf
    unfold generate_log_message
    cases hl : level_number level with
    | none => simp [exceptIsOk]
    | some n =>
      simp only [exceptIsOk]
      rw [if_neg (by simp [h1]), if_neg (by simp [h2])]
  · intro hf hl
    fin_cases hf <;> fin_cases hl <;>
      simp [generate_log_message, level_number_DEBUG, level_number_INFO,
        level_number_WARNING, level_number_ERROR, level_number_CRITICAL, exceptIsOk]

/-- Witness for C9: the unrecognized format "json" raises while "cef"
renders, at a concrete record and level INFO. -/
theorem format_error_handling_witness :
    exceptIsOk (generate_log_message "json" successLoginRecord "INFO") = false ∧
    exceptIsOk (generate_log_message "cef" successLoginRecord "INFO") = true :=
  ⟨(format_error_handling "json" "INFO" successLoginRecord).1 (by decide),
   (format_error_handling "cef" "INFO" successLoginRecord).2 (by decide) (by decide)⟩

/-- C8 (amended): a runtime of 0 disables the elapsed-time bound — the run
emits one event per loop iteration with no early break — but the run still
self-terminates after the configured number of events, whatever the clock
does; for every runtime the run never exceeds `events` iterations. -/
theorem runtime_zero_no_time_bound (events : Nat) (runtime : Int) (elapsed : Nat → Int) :
    emitted_events events 0 elapsed = events ∧
    emitted_events events runtime elapsed ≤ events :=
  ⟨emit_loop_runtime_zero elapsed 0 events, emit_loop_le runtime elapsed 0 events⟩

/-- C8 counterexample: with runtime 0 and the default events count 20 the
run self-terminates after exactly 20 events, even under a clock advancing
an hour per tick — it does not keep producing events indefinitely. -/
theorem runtime_zero_run_terminates :
    emitted_events 20 0 (fun j => 3600 * (j : Int)) = 20 := by decide

/-- C10: argument validation rejects level DEBUG combined with runtime 0
for every facility, events and rate value; with valid facility, positive
events and rate, every other configured level is accepted at runtime 0,
and DEBUG itself is accepted at any nonzero runtime. -/
theorem debug_runtime_validation (facility : String) (events rate runtime : Int)
    (level : String) :
    exceptIsOk (parse_validate facility events rate "DEBUG" 0) = false ∧
    (check_facility facility = true → 0 < events → 0 < rate → level ∈ valid_levels →
      level ≠ "DEBUG" →
      exceptIsOk (parse_validate facility events rate level 0) = true) ∧
    (check_facility facility = true → 0 < events → 0 < rate → runtime ≠ 0 →
      exceptIsOk (parse_validate facility events rate "DEBUG" runtime) = true) := by
  refine ⟨?_, ?_, ?_⟩
  · unfold parse_validate resolve_facility
    split_ifs <;> simp_all [exceptIsOk]
  · intro hf he hr hl hne
    unfold parse_validate resolve_facility
    rw [if_pos hf, if_neg (by omega), if_neg (by omega),
      if_neg (by simp [hne]), ]
    rfl
  · intro hf he hr hrt
    unfold parse_validate resolve_facility
    rw [if_pos hf, if_neg (by omega), if_neg (by omega),
      if_neg (by simp [hrt]), ]
    rfl

/-- Witness for C10: DEBUG with runtime 0 is rejected while INFO with
runtime 0 and DEBUG with runtime 300 are accepted, at the default facility,
events and rate. -/
theorem debug_runtime_validation_witness :
    exceptIsOk (parse_validate "syslog" 20 60 "DEBUG" 0) = false ∧
    exceptIsOk (parse_validate "syslog" 20 60 "INFO" 0) = true ∧
    exceptIsOk (parse_validate "syslog" 20 60 "DEBUG" 300) = true :=
  ⟨(debug_runtime_validation "syslog" 20 60 0 "INFO").1,
   (debug_runtime_validation "syslog" 20 60 0 "INFO").2.1 (by decide) (by decide)
     (by decide) (by decide) (by decide),
   (debug_runtime_validation "syslog" 20 60 300 "INFO").2.2 (by decide) (by decide)
     (by decide) (by decide)⟩

end LogSimulator
